import Mathlib

/-!
Shallow embedding of `main.py` of the google-chatbot-backend service
(FastAPI app bridging a chat frontend to Google OAuth2 / Gmail and a
completion API), together with proofs of the specified properties.

External HTTP responses (token exchange, userinfo, completion API, Gmail
list/get) are inputs of the embedded handlers; outbound calls made by a
handler are returned as an explicit trace so that "performs no downstream
call" is expressible.  JSON dictionaries are modelled as string-keyed
association lists with first-match lookup (parsed JSON objects have unique
keys, so this coincides with Python dict lookup).
-/

set_option autoImplicit false

namespace GoogleChatbot

/-- A parsed JSON object with string values, e.g. a token response or a
userinfo response: `{"access_token": "...", ...}`. -/
abbrev Dict := List (String × String)

/-- Python `d.get(key)` / `d[key]` lookup on a dict. -/
def dictGet : Dict → String → Option String
  | [], _ => none
  | (k, v) :: rest, key => if k = key then some v else dictGet rest key

/-- The in-memory session store `user_tokens = {}` (main.py line 52): a
mapping from user id to token bundle.  The key is `Option String` because
`user_info.get("id")` may be `None` and Python dicts accept `None` keys. -/
abbrev Store := List (Option String × Dict)

/-- Python dict assignment `user_tokens[user_id] = tokens`: overwrite the
binding for the key if present, otherwise append it. -/
def storeSet : Store → Option String → Dict → Store
  | [], k, v => [(k, v)]
  | (k1, v1) :: rest, k, v =>
      if k1 = k then (k, v) :: rest else (k1, v1) :: storeSet rest k v

/-- Python `key in user_tokens`. -/
def storeHas (s : Store) (k : Option String) : Bool :=
  s.any (fun p => p.1 == k)

/-- Python `user_tokens[key]` lookup (first match). -/
def storeGet : Store → Option String → Option Dict
  | [], _ => none
  | (k1, v1) :: rest, k => if k1 = k then some v1 else storeGet rest k

/-- An HTTP error response produced by `raise HTTPException(...)` reaching
FastAPI: status code and detail string. -/
structure HttpError where
  statusCode : Nat
  detail : String
  deriving DecidableEq, Repr

/-- A `RedirectResponse(url=...)`; starlette's default redirect status is 307. -/
structure RedirectResponse where
  url : String
  statusCode : Nat := 307
  deriving DecidableEq, Repr

/-- The fixed frontend URL of `google_callback` (main.py lines 129, 133). -/
def frontend_url : String := "https://v0-google-integration-chatbot.vercel.app"

/-- Python `f"{user_id}"` where `user_id` is `str` or `None`. -/
def pyShow : Option String → String
  | none => "None"
  | some s => s

/-- `GET /auth/google/callback` (main.py lines 95-134), at the level of the
already-parsed token-exchange response `tokens` and userinfo response
`user_info`.  If the token response lacks `access_token`, the handler raises
`HTTPException(400, "Failed to get access token")` inside the `try`; the
blanket `except Exception as e` catches it (starlette's `HTTPException`
subclasses `Exception`, and its `str` is `"<status>: <detail>"`) and turns it
into the error redirect.  Otherwise the token bundle is stored under
`user_info.get("id")` and a success redirect is returned.  Every path
returns a redirect; the result type has no error alternative. -/
def google_callback (tokens user_info : Dict) (store : Store) :
    RedirectResponse × Store :=
  match dictGet tokens "access_token" with
  | none =>
      ({ url := frontend_url ++ "?auth=error&message=400: Failed to get access token" },
       store)
  | some _ =>
      let user_id := dictGet user_info "id"
      ({ url := frontend_url ++ "?auth=success&user_id=" ++ pyShow user_id },
       storeSet store user_id tokens)

/-- `GET /auth/status` (main.py lines 136-141): `(connected, services)`. -/
def auth_status (store : Store) (user_id : String) : Bool × List String :=
  if storeHas store (some user_id) then (true, ["gmail", "calendar", "drive"])
  else (false, [])

/-- One header of a Gmail message payload. -/
structure GmailHeader where
  name : String
  value : String
  deriving DecidableEq, Repr

/-- The part of a Gmail `messages.get` response the handler reads:
`message['payload']['headers']` and `message.get('snippet', '')`. -/
structure GmailMessage where
  headers : List GmailHeader
  snippet : String
  deriving DecidableEq, Repr

/-- One entry of the `emails` list built by `get_gmail_messages`. -/
structure EmailSummary where
  id : String
  subject : String
  sender : String
  snippet : String
  deriving DecidableEq, Repr

/-- An outbound Gmail API call made by `get_gmail_messages`: either
`users().messages().list(userId='me', maxResults=limit)` or
`users().messages().get(userId='me', id=...)`. -/
inductive GmailCall where
  | listCall (maxResults : Nat)
  | getCall (id : String)
  deriving DecidableEq, Repr

/-- Python `next((h['value'] for h in headers if h['name'] == name), dflt)`. -/
def headerValue (hs : List GmailHeader) (name dflt : String) : String :=
  match hs.find? (fun h => h.name == name) with
  | some h => h.value
  | none => dflt

/-- main.py lines 206-216: shape one fetched message into an `EmailSummary`. -/
def summarize (id : String) (m : GmailMessage) : EmailSummary :=
  { id := id
    subject := headerValue m.headers "Subject" "No Subject"
    sender := headerValue m.headers "From" "Unknown Sender"
    snippet := m.snippet }

/-- `GET /google/gmail` (main.py lines 189-221).  `ids` is the list of
message ids the upstream list call returns (the upstream may return any
number of ids, regardless of `maxResults`); `getMsg` gives the upstream
response of a `messages.get` call.  The second component is the trace of
Gmail API calls the handler issues.

When `user_id` is not in the store the handler raises
`HTTPException(401, "User not authenticated")` inside the `try` block; the
blanket `except Exception as e` at line 220 catches it (it subclasses
`Exception`) and re-raises `HTTPException(500, f"Gmail access failed: {e}")`
where `str(e)` is `"401: User not authenticated"` — so the client sees 500,
not 401.  If the stored bundle lacked `access_token`, `tokens["access_token"]`
would raise `KeyError` whose `str` is `"'access_token'"`, wrapped the same
way.  Otherwise the handler lists ids with `maxResults=limit` and fetches
detail for `messages[:5]` only. -/
def get_gmail_messages (user_id : String) (limit : Nat) (store : Store)
    (ids : List String) (getMsg : String → GmailMessage) :
    Except HttpError (List EmailSummary) × List GmailCall :=
  match storeGet store (some user_id) with
  | none =>
      (Except.error { statusCode := 500,
                      detail := "Gmail access failed: 401: User not authenticated" },
       [])
  | some tokens =>
      match dictGet tokens "access_token" with
      | none =>
          (Except.error { statusCode := 500,
                          detail := "Gmail access failed: 'access_token'" },
           [])
      | some _ =>
          let fetched := ids.take 5
          (Except.ok (fetched.map (fun i => summarize i (getMsg i))),
           GmailCall.listCall limit :: fetched.map GmailCall.getCall)

/-- Whether a Gmail API call is a `messages.get` (full-detail fetch). -/
def isGetCall : GmailCall → Bool
  | GmailCall.getCall _ => true
  | GmailCall.listCall _ => false

/-- `startsWithL hay needle`: `needle` is an initial segment of `hay`. -/
def startsWithL : List Char → List Char → Bool
  | _, [] => true
  | [], _ :: _ => false
  | a :: as, b :: bs => a == b && startsWithL as bs

/-- `containsL hay needle`: `needle` occurs contiguously inside `hay`. -/
def containsL : List Char → List Char → Bool
  | [], needle => needle.isEmpty
  | a :: rest, needle => startsWithL (a :: rest) needle || containsL rest needle

/-- Python `needle in hay` on strings. -/
def hasSubstr (hay needle : String) : Bool :=
  containsL hay.data needle.data

/-- Python `any(word in m for word in words)`. -/
def kwAny (words : List String) (m : String) : Bool :=
  words.any (fun w => hasSubstr m w)

/-- Python `s.lower()` (ASCII case folding, characterwise). -/
def lowerStr (s : String) : String :=
  String.mk (s.data.map Char.toLower)

/-- main.py line 177. -/
def gmailKeywords : List String := ["email", "mail", "gmail"]

/-- main.py line 179. -/
def calendarKeywords : List String := ["calendar", "schedule", "meeting"]

/-- main.py line 181. -/
def driveKeywords : List String := ["drive", "file", "document"]

/-- main.py lines 175-182: keyword intent detection on the lowercased
message, priority gmail, then calendar, then drive; `none` if no match. -/
def detect_intent (message : String) : Option String :=
  if kwAny gmailKeywords (lowerStr message) then some "gmail"
  else if kwAny calendarKeywords (lowerStr message) then some "calendar"
  else if kwAny driveKeywords (lowerStr message) then some "drive"
  else none

/-- The successful body of `POST /chat`: the AI text and the intent tag. -/
structure ChatBody where
  response : String
  intent : Option String
  deriving DecidableEq, Repr

/-- `POST /chat` (main.py lines 143-187) given the single upstream
completion response: its HTTP status, raw body text, and (when parsed)
`result["choices"][0]["message"]["content"]`.  The `Nat` component counts
upstream completion requests issued — always exactly one, there is no retry.

On a non-200 upstream status the handler raises
`HTTPException(500, f"Cerebras API error: {response.text}")` inside the
`try`; the blanket `except Exception as e` catches it and re-raises
`HTTPException(500, f"Chat processing failed: {str(e)}")`, with `str(e)`
being `"500: Cerebras API error: <body>"`. -/
def chat (message : String) (status : Nat) (body content : String) :
    Except HttpError ChatBody × Nat :=
  if status ≠ 200 then
    (Except.error
       { statusCode := 500,
         detail := "Chat processing failed: 500: Cerebras API error: " ++ body },
     1)
  else
    (Except.ok { response := content, intent := detect_intent message }, 1)

/-- Python `s.rstrip('/')`: drop all trailing slashes. -/
def rstripSlash (s : String) : String :=
  String.mk ((s.data.reverse.dropWhile (fun c => c == '/')).reverse)

/-- The OAuth scope list of main.py lines 71-78. -/
def scopesList : List String :=
  ["openid", "email", "profile",
   "https://www.googleapis.com/auth/gmail.readonly",
   "https://www.googleapis.com/auth/calendar.readonly",
   "https://www.googleapis.com/auth/drive.readonly"]

/-- `GET /auth/google` (main.py lines 62-91): build the authorization URL
from the configured client id and the request's base URL (starlette's
`str(request.base_url)`, which the handler rstrips of trailing slashes). -/
def google_auth (client_id raw_base : String) : String :=
  let base_url := rstripSlash raw_base
  let redirect_uri := base_url ++ "/auth/google/callback"
  "https://accounts.google.com/o/oauth2/auth?client_id=" ++ client_id ++
    "&redirect_uri=" ++ redirect_uri ++
    "&scope=" ++ String.intercalate "+" scopesList ++
    "&response_type=code&access_type=offline&prompt=consent"

/-! Query-string parsing, used to state what a URL's query parameters are.
This is specification apparatus (the code builds URLs by concatenation). -/

/-- Everything after the first occurrence of `c`, if any. -/
def afterChar (c : Char) : List Char → Option (List Char)
  | [] => none
  | x :: xs => if x = c then some xs else afterChar c xs

/-- Split on every occurrence of `c` (no occurrence gives one group). -/
def splitChar (c : Char) : List Char → List (List Char)
  | [] => [[]]
  | x :: xs =>
    if x = c then [] :: splitChar c xs
    else
      match splitChar c xs with
      | [] => [[x]]
      | g :: gs => (x :: g) :: gs

/-- Split a `key=value` piece at its first `=`; no `=` gives an empty value. -/
def keyVal : List Char → List Char × List Char
  | [] => ([], [])
  | x :: xs =>
    if x = '=' then ([], xs)
    else ((keyVal xs).1.cons x, (keyVal xs).2)

/-- The value of query parameter `name` in `url` (first occurrence):
take the part after the first `?`, split it on `&`, split each piece at
its first `=`, and look the name up. -/
def queryParam (url name : String) : Option String :=
  match afterChar '?' url.data with
  | none => none
  | some q =>
      match ((splitChar '&' q).map keyVal).find? (fun p => p.1 == name.data) with
      | none => none
      | some p => some (String.mk p.2)

/-! The request-level state machine: which handler runs is an event; only
`google_callback` writes the session store, every other handler leaves it
unchanged (they only read it, or no state at all). -/

/-- One inbound request, carrying the upstream responses it consumes. -/
inductive Event where
  | callbackEv (tokens user_info : Dict)
  | statusEv (user_id : String)
  | chatEv (message : String) (upstreamStatus : Nat) (body content : String)
  | gmailEv (user_id : String) (limit : Nat) (ids : List String)
      (getMsg : String → GmailMessage)
  | beginAuthEv (client_id raw_base : String)
  | rootEv
  | healthEv

/-- Effect of one request on the session store. -/
def stepStore : Event → Store → Store
  | Event.callbackEv tokens user_info, s => (google_callback tokens user_info s).2
  | _, s => s

/-- Store after a sequence of requests starting from `s`. -/
def runStore (evts : List Event) (s : Store) : Store :=
  evts.foldl (fun s e => stepStore e s) s

/-- A callback request that completes successfully (token exchange returned
an `access_token`) and whose userinfo response carries id `u`. -/
def isSuccessCallbackFor (u : String) : Event → Bool
  | Event.callbackEv tokens user_info =>
      (dictGet tokens "access_token").isSome && (dictGet user_info "id" == some u)
  | _ => false

/-! ### Helper lemmas -/

theorem mk_data (s : String) : String.mk s.data = s := by
  cases s
  rfl

theorem mem_of_mem_rstripSlash {c : Char} {s : String}
    (h : c ∈ (rstripSlash s).data) : c ∈ s.data := by
  simp only [rstripSlash] at h
  rw [List.mem_reverse] at h
  have h2 : c ∈ s.data.reverse := (List.dropWhile_sublist _).subset h
  rwa [List.mem_reverse] at h2

@[simp] theorem storeHas_nil (k : Option String) : storeHas [] k = false := rfl

@[simp] theorem storeHas_cons (p : Option String × Dict) (rest : Store)
    (k : Option String) : storeHas (p :: rest) k = (p.1 == k || storeHas rest k) := rfl

theorem storeHas_storeSet_self (s : Store) (k : Option String) (v : Dict) :
    storeHas (storeSet s k v) k = true := by
  induction s with
  | nil => simp [storeSet]
  | cons p rest ih =>
    obtain ⟨k2, v2⟩ := p
    by_cases h : k2 = k
    · subst h
      simp [storeSet]
    · simp [storeSet, h, ih]

theorem storeHas_storeSet_ne (s : Store) (k k1 : Option String) (v : Dict)
    (hne : k1 ≠ k) : storeHas (storeSet s k v) k1 = storeHas s k1 := by
  induction s with
  | nil => simp [storeSet, Ne.symm hne]
  | cons p rest ih =>
    obtain ⟨k2, v2⟩ := p
    by_cases h : k2 = k
    · subst h
      simp [storeSet, Ne.symm hne]
    · simp [storeSet, h, ih]

theorem storeHas_storeSet_iff (s : Store) (k k1 : Option String) (v : Dict) :
    storeHas (storeSet s k v) k1 = true ↔ (k1 = k ∨ storeHas s k1 = true) := by
  by_cases h : k1 = k
  · subst h
    simp [storeHas_storeSet_self]
  · rw [storeHas_storeSet_ne s k k1 v h]
    simp [h]

theorem storeGet_storeSet_self (s : Store) (k : Option String) (v : Dict) :
    storeGet (storeSet s k v) k = some v := by
  induction s with
  | nil => simp [storeSet, storeGet]
  | cons p rest ih =>
    obtain ⟨k2, v2⟩ := p
    by_cases h : k2 = k
    · subst h
      simp [storeSet, storeGet]
    · simp [storeSet, storeGet, h, ih]

theorem storeGet_none_iff (s : Store) (k : Option String) :
    storeGet s k = none ↔ storeHas s k = false := by
  induction s with
  | nil => simp [storeGet]
  | cons p rest ih =>
    obtain ⟨k2, v2⟩ := p
    by_cases h : k2 = k
    · subst h
      simp [storeGet]
    · simp [storeGet, h, ih]

theorem storeHas_isSome (s : Store) (k : Option String) (h : storeHas s k = true) :
    ∃ v, storeGet s k = some v := by
  cases hg : storeGet s k with
  | none => rw [(storeGet_none_iff s k).mp hg] at h; exact absurd h (by simp)
  | some v => exact ⟨v, rfl⟩

theorem startsWithL_self (l : List Char) : startsWithL l l = true := by
  induction l with
  | nil => rfl
  | cons a r ih => simp [startsWithL, ih]

theorem containsL_self (l : List Char) : containsL l l = true := by
  cases l with
  | nil => rfl
  | cons a r => simp [containsL, startsWithL_self]

theorem containsL_append_left (p l n : List Char) (h : containsL l n = true) :
    containsL (p ++ l) n = true := by
  induction p with
  | nil => simpa using h
  | cons a r ih => simp [containsL, ih]

theorem hasSubstr_append_self (p s : String) : hasSubstr (p ++ s) s = true := by
  simp only [hasSubstr, String.data_append]
  exact containsL_append_left p.data s.data s.data (containsL_self s.data)

theorem runStore_nil (s : Store) : runStore [] s = s := rfl

theorem runStore_cons (e : Event) (evts : List Event) (s : Store) :
    runStore (e :: evts) s = runStore evts (stepStore e s) := rfl

theorem storeHas_stepStore_iff (e : Event) (s : Store) (u : String) :
    storeHas (stepStore e s) (some u) = true ↔
      (isSuccessCallbackFor u e = true ∨ storeHas s (some u) = true) := by
  cases e with
  | callbackEv tokens user_info =>
    simp only [stepStore, google_callback, isSuccessCallbackFor]
    cases hat : dictGet tokens "access_token" with
    | none => simp
    | some tok =>
      simp only [Option.isSome_some, Bool.true_and]
      rw [storeHas_storeSet_iff]
      constructor
      · rintro (h1 | h1)
        · exact Or.inl (by simp [← h1])
        · exact Or.inr h1
      · rintro (h1 | h1)
        · simp only [beq_iff_eq] at h1
          exact Or.inl h1.symm
        · exact Or.inr h1
  | statusEv u1 => simp [stepStore, isSuccessCallbackFor]
  | chatEv m st b c => simp [stepStore, isSuccessCallbackFor]
  | gmailEv u1 l ids g => simp [stepStore, isSuccessCallbackFor]
  | beginAuthEv cid rb => simp [stepStore, isSuccessCallbackFor]
  | rootEv => simp [stepStore, isSuccessCallbackFor]
  | healthEv => simp [stepStore, isSuccessCallbackFor]

theorem runStore_has_iff (evts : List Event) (s : Store) (u : String) :
    storeHas (runStore evts s) (some u) = true ↔
      (evts.any (isSuccessCallbackFor u) = true ∨ storeHas s (some u) = true) := by
  induction evts generalizing s with
  | nil => simp [runStore_nil]
  | cons e rest ih =>
    rw [runStore_cons, ih, storeHas_stepStore_iff]
    simp only [List.any_cons, Bool.or_eq_true]
    tauto

theorem afterChar_append (c : Char) (xs ys : List Char) (h : c ∉ xs) :
    afterChar c (xs ++ c :: ys) = some ys := by
  induction xs with
  | nil => simp [afterChar]
  | cons a r ih =>
    have ha : a ≠ c := fun e => h (e ▸ List.mem_cons_self a r)
    have hr : c ∉ r := fun e => h (List.mem_cons_of_mem a e)
    simp [afterChar, ha, ih hr]

theorem splitChar_ne_nil (c : Char) (l : List Char) : splitChar c l ≠ [] := by
  cases l with
  | nil => simp [splitChar]
  | cons a r =>
    by_cases h : a = c
    · simp [splitChar, h]
    · simp only [splitChar, if_neg h]
      cases hs : splitChar c r with
      | nil => simp
      | cons g gs => simp

theorem splitChar_append (c : Char) (xs ys : List Char) (h : c ∉ xs) :
    splitChar c (xs ++ c :: ys) = xs :: splitChar c ys := by
  induction xs with
  | nil => simp [splitChar]
  | cons a r ih =>
    have ha : a ≠ c := fun e => h (e ▸ List.mem_cons_self a r)
    have hr : c ∉ r := fun e => h (List.mem_cons_of_mem a e)
    simp only [List.cons_append, splitChar, if_neg ha, List.append_eq]
    rw [ih hr]

theorem keyVal_append (ks vs : List Char) (h : '=' ∉ ks) :
    keyVal (ks ++ '=' :: vs) = (ks, vs) := by
  induction ks with
  | nil => simp [keyVal]
  | cons a r ih =>
    have ha : a ≠ '=' := fun e => h (e ▸ List.mem_cons_self a r)
    have hr : '=' ∉ r := fun e => h (List.mem_cons_of_mem a e)
    simp [keyVal, ha, ih hr]

theorem filter_isGetCall_map_getCall (l : List String) :
    (l.map GmailCall.getCall).filter isGetCall = l.map GmailCall.getCall := by
  induction l with
  | nil => rfl
  | cons a r ih => simp [isGetCall, ih]

/-! ### Claim theorems -/

/-- Claim C1 (code bug): for a user id absent from the session store,
`get_gmail_messages` performs no downstream Gmail API call (empty trace),
but the `HTTPException(401, "User not authenticated")` it raises is caught
by the handler's own blanket `except Exception` and re-wrapped, so the
response is HTTP 500 with detail
`"Gmail access failed: 401: User not authenticated"` rather than the 401
the spec claims. -/
theorem c1_unknown_user_wrapped_500 (user_id : String) (limit : Nat)
    (store : Store) (ids : List String) (getMsg : String → GmailMessage)
    (h : storeHas store (some user_id) = false) :
    get_gmail_messages user_id limit store ids getMsg
      = (Except.error { statusCode := 500,
                        detail := "Gmail access failed: 401: User not authenticated" },
         []) := by
  have hg : storeGet store (some user_id) = none :=
    (storeGet_none_iff store (some user_id)).mpr h
  simp [get_gmail_messages, hg]

/-- Witness for C1: concrete unknown user against the empty store. -/
theorem c1_witness :
    storeHas [] (some "ghost") = false ∧
    get_gmail_messages "ghost" 10 [] ["m1", "m2"] (fun _ => { headers := [], snippet := "" })
      = (Except.error { statusCode := 500,
                        detail := "Gmail access failed: 401: User not authenticated" },
         []) :=
  ⟨rfl, c1_unknown_user_wrapped_500 "ghost" 10 [] ["m1", "m2"]
    (fun _ => { headers := [], snippet := "" }) rfl⟩

/-- Claim C2: when the token-exchange response lacks `access_token`,
`google_callback` returns an HTTP redirect (status 307) to the fixed
frontend URL with `auth=error` and an error message, leaves the store
unchanged, and — by the shape of its result type — never propagates an
exception or a non-redirect error status. -/
theorem c2_missing_access_token_error_redirect (tokens user_info : Dict)
    (s : Store) (h : dictGet tokens "access_token" = none) :
    google_callback tokens user_info s
      = ({ url := frontend_url ++ "?auth=error&message=400: Failed to get access token",
               statusCode := 307 }, s) ∧
    queryParam (frontend_url ++ "?auth=error&message=400: Failed to get access token")
        "auth" = some "error" := by
  refine ⟨?_, by decide⟩
  simp [google_callback, h]

/-- Witness for C2: a concrete error token response. -/
theorem c2_witness :
    dictGet [("error", "invalid_grant")] "access_token" = none ∧
    (google_callback [("error", "invalid_grant")] [] []
      = ({ url := frontend_url ++ "?auth=error&message=400: Failed to get access token",
               statusCode := 307 }, []) ∧
     queryParam (frontend_url ++ "?auth=error&message=400: Failed to get access token")
        "auth" = some "error") :=
  ⟨rfl, c2_missing_access_token_error_redirect [("error", "invalid_grant")] [] [] rfl⟩

/-- Claim C3: starting from the empty store (process start), a token bundle
exists for user id `u` iff the request trace contains a callback that
completed successfully (token response had `access_token`) with userinfo id
`u`; in particular, after a successful callback returning id `u`,
`auth_status u` reports connected with the fixed services list. -/
theorem c3_token_iff_successful_callback (evts : List Event) (u : String)
    (tokens user_info : Dict) :
    (storeHas (runStore evts []) (some u) = true ↔
      evts.any (isSuccessCallbackFor u) = true) ∧
    ((dictGet tokens "access_token").isSome = true →
      dictGet user_info "id" = some u →
      auth_status (runStore (evts ++ [Event.callbackEv tokens user_info]) []) u
        = (true, ["gmail", "calendar", "drive"])) := by
  constructor
  · rw [runStore_has_iff]
    simp
  · intro h1 h2
    have hsplit : runStore (evts ++ [Event.callbackEv tokens user_info]) []
        = stepStore (Event.callbackEv tokens user_info) (runStore evts []) := by
      simp [runStore, List.foldl_append]
    rw [hsplit]
    have hhas : storeHas (stepStore (Event.callbackEv tokens user_info)
        (runStore evts [])) (some u) = true := by
      rw [storeHas_stepStore_iff]
      left
      simp [isSuccessCallbackFor, h1, h2]
    simp [auth_status, hhas]

/-- Witness for C3: one successful callback for user `u1` from the empty trace. -/
theorem c3_witness :
    (dictGet [("access_token", "tok")] "access_token").isSome = true ∧
    dictGet [("id", "u1")] "id" = some "u1" ∧
    auth_status (runStore ([] ++ [Event.callbackEv [("access_token", "tok")] [("id", "u1")]]) []) "u1"
      = (true, ["gmail", "calendar", "drive"]) :=
  ⟨rfl, rfl,
   (c3_token_iff_successful_callback [] "u1" [("access_token", "tok")] [("id", "u1")]).2
     rfl rfl⟩

/-- Claim C4: `chat` classifies intent by case-insensitive substring match
on the fixed keyword sets, priority gmail before calendar before drive,
first match winning, no match giving no intent; concretely,
"check my email" gives gmail, "schedule a meeting" gives calendar,
"find a document" gives drive, and "hello" gives no intent. -/
theorem c4_chat_intent_classification (body content : String) :
    ((chat "check my email" 200 body content).1
        = Except.ok { response := content, intent := some "gmail" }) ∧
    ((chat "schedule a meeting" 200 body content).1
        = Except.ok { response := content, intent := some "calendar" }) ∧
    ((chat "find a document" 200 body content).1
        = Except.ok { response := content, intent := some "drive" }) ∧
    ((chat "hello" 200 body content).1
        = Except.ok { response := content, intent := none }) ∧
    (∀ message : String, kwAny gmailKeywords (lowerStr message) = true →
        (chat message 200 body content).1
          = Except.ok { response := content, intent := some "gmail" }) ∧
    (∀ message : String, kwAny gmailKeywords (lowerStr message) = false →
        kwAny calendarKeywords (lowerStr message) = true →
        (chat message 200 body content).1
          = Except.ok { response := content, intent := some "calendar" }) ∧
    (∀ message : String, kwAny gmailKeywords (lowerStr message) = false →
        kwAny calendarKeywords (lowerStr message) = false →
        kwAny driveKeywords (lowerStr message) = true →
        (chat message 200 body content).1
          = Except.ok { response := content, intent := some "drive" }) ∧
    (∀ message : String, kwAny gmailKeywords (lowerStr message) = false →
        kwAny calendarKeywords (lowerStr message) = false →
        kwAny driveKeywords (lowerStr message) = false →
        (chat message 200 body content).1
          = Except.ok { response := content, intent := none }) := by
  refine ⟨rfl, rfl, rfl, rfl, ?_, ?_, ?_, ?_⟩
  · intro message h1
    simp [chat, detect_intent, h1]
  · intro message h1 h2
    simp [chat, detect_intent, h1, h2]
  · intro message h1 h2 h3
    simp [chat, detect_intent, h1, h2, h3]
  · intro message h1 h2 h3
    simp [chat, detect_intent, h1, h2, h3]

/-- Witness for C4: a mixed-case gmail keyword and a no-keyword message. -/
theorem c4_witness :
    kwAny gmailKeywords (lowerStr "lots of MAIL here") = true ∧
    (chat "lots of MAIL here" 200 "rawbody" "reply").1
      = Except.ok { response := "reply", intent := some "gmail" } ∧
    (chat "hello" 200 "rawbody" "reply").1
      = Except.ok { response := "reply", intent := none } :=
  ⟨by decide,
   (c4_chat_intent_classification "rawbody" "reply").2.2.2.2.1 "lots of MAIL here"
     (by decide),
   (c4_chat_intent_classification "rawbody" "reply").2.2.2.1⟩

/-- Claim C5: for a user id with a stored token bundle and any limit,
`get_gmail_messages` fetches full detail (`messages.get`) for at most 5
messages, only among the first 5 listed ids, regardless of `limit`; when the
bundle has an access token the call trace is exactly one list call followed
by one get per id among the first five listed. -/
theorem c5_gmail_detail_capped_at_five (user_id : String) (limit : Nat)
    (store : Store) (ids : List String) (getMsg : String → GmailMessage)
    (h : storeHas store (some user_id) = true) :
    (((get_gmail_messages user_id limit store ids getMsg).2.filter isGetCall).length ≤ 5) ∧
    (∀ i : String,
        GmailCall.getCall i ∈ (get_gmail_messages user_id limit store ids getMsg).2 →
        i ∈ ids.take 5) ∧
    (∀ tokens : Dict, storeGet store (some user_id) = some tokens →
        (dictGet tokens "access_token").isSome = true →
        (get_gmail_messages user_id limit store ids getMsg).2
          = GmailCall.listCall limit :: (ids.take 5).map GmailCall.getCall) := by
  obtain ⟨tokens, htk⟩ := storeHas_isSome store (some user_id) h
  cases hat : dictGet tokens "access_token" with
  | none =>
    refine ⟨?_, ?_, ?_⟩
    · simp [get_gmail_messages, htk, hat]
    · intro i hi
      simp [get_gmail_messages, htk, hat] at hi
    · intro tk htk2 hsome
      rw [htk] at htk2
      injection htk2 with e
      subst e
      rw [hat] at hsome
      simp at hsome
  | some tok =>
    refine ⟨?_, ?_, ?_⟩
    · simp only [get_gmail_messages, htk, hat]
      simp only [List.filter, isGetCall, filter_isGetCall_map_getCall]
      rw [List.length_map, List.length_take]
      omega
    · intro i hi
      simp only [get_gmail_messages, htk, hat] at hi
      rcases List.mem_cons.mp hi with h1 | h1
      · exact absurd h1 (by simp)
      · obtain ⟨a, ha, e⟩ := List.mem_map.mp h1
        injection e with e1
        exact e1 ▸ ha
    · intro tk htk2 hsome
      rw [htk] at htk2
      injection htk2 with e
      subst e
      simp [get_gmail_messages, htk, hat]

/-- Witness for C5: seven listed ids, only the first five fetched. -/
theorem c5_witness :
    storeHas [(some "u1", [("access_token", "tok")])] (some "u1") = true ∧
    (((get_gmail_messages "u1" 10 [(some "u1", [("access_token", "tok")])]
        ["m1", "m2", "m3", "m4", "m5", "m6", "m7"]
        (fun _ => { headers := [], snippet := "" })).2.filter isGetCall).length ≤ 5) ∧
    (get_gmail_messages "u1" 10 [(some "u1", [("access_token", "tok")])]
        ["m1", "m2", "m3", "m4", "m5", "m6", "m7"]
        (fun _ => { headers := [], snippet := "" })).2
      = GmailCall.listCall 10 ::
          (["m1", "m2", "m3", "m4", "m5", "m6", "m7"].take 5).map GmailCall.getCall :=
  ⟨rfl,
   (c5_gmail_detail_capped_at_five "u1" 10 [(some "u1", [("access_token", "tok")])]
      ["m1", "m2", "m3", "m4", "m5", "m6", "m7"]
      (fun _ => { headers := [], snippet := "" }) rfl).1,
   (c5_gmail_detail_capped_at_five "u1" 10 [(some "u1", [("access_token", "tok")])]
      ["m1", "m2", "m3", "m4", "m5", "m6", "m7"]
      (fun _ => { headers := [], snippet := "" }) rfl).2.2
     [("access_token", "tok")] rfl rfl⟩

/-- Claim C6: for any client id and request base URL free of the query
metacharacter, the authorization URL built by `google_auth` has a
`redirect_uri` query parameter equal to the normalized base URL followed by
`/auth/google/callback`. -/
theorem c6_redirect_uri_parameter (client_id raw_base : String)
    (hc : '&' ∉ client_id.data) (hb : '&' ∉ raw_base.data) :
    queryParam (google_auth client_id raw_base) "redirect_uri"
      = some (rstripSlash raw_base ++ "/auth/google/callback") := by
  have hu : '&' ∉ (rstripSlash raw_base ++ "/auth/google/callback").data := by
    rw [String.data_append]
    intro hmem
    rcases List.mem_append.mp hmem with h | h
    · exact hb (mem_of_mem_rstripSlash h)
    · revert h
      decide
  have hdata : (google_auth client_id raw_base).data
      = ("https://accounts.google.com/o/oauth2/auth").data ++ '?' ::
        ((("client_id").data ++ '=' :: client_id.data) ++ '&' ::
         ((("redirect_uri").data ++ '=' ::
             (rstripSlash raw_base ++ "/auth/google/callback").data) ++ '&' ::
          ("scope=" ++ String.intercalate "+" scopesList ++
            "&response_type=code&access_type=offline&prompt=consent").data)) := by
    show ("https://accounts.google.com/o/oauth2/auth?client_id=" ++ client_id ++
      "&redirect_uri=" ++ (rstripSlash raw_base ++ "/auth/google/callback") ++
      "&scope=" ++ String.intercalate "+" scopesList ++
      "&response_type=code&access_type=offline&prompt=consent").data = _
    have hA : ("https://accounts.google.com/o/oauth2/auth?client_id=").data
        = ("https://accounts.google.com/o/oauth2/auth").data ++ '?' ::
          ("client_id").data ++ ['='] := by decide
    have hB : ("&redirect_uri=").data = '&' :: ("redirect_uri").data ++ ['='] := by
      decide
    have hC : ("&scope=").data = '&' :: ("scope=").data := by decide
    simp only [String.data_append, hA, hB, hC, List.cons_append, List.append_assoc,
      List.singleton_append, List.nil_append]
  have h1 : '&' ∉ ("client_id").data ++ '=' :: client_id.data := by
    intro hm
    rcases List.mem_append.mp hm with h | h
    · revert h
      decide
    · rcases List.mem_cons.mp h with h | h
      · exact absurd h (by decide)
      · exact hc h
  have h2 : '&' ∉ ("redirect_uri").data ++ '=' ::
      (rstripSlash raw_base ++ "/auth/google/callback").data := by
    intro hm
    rcases List.mem_append.mp hm with h | h
    · revert h
      decide
    · rcases List.mem_cons.mp h with h | h
      · exact absurd h (by decide)
      · exact hu h
  have k1 : keyVal (("client_id").data ++ '=' :: client_id.data)
      = (("client_id").data, client_id.data) := keyVal_append _ _ (by decide)
  have k2 : keyVal (("redirect_uri").data ++ '=' ::
        (rstripSlash raw_base ++ "/auth/google/callback").data)
      = (("redirect_uri").data,
         (rstripSlash raw_base ++ "/auth/google/callback").data) :=
    keyVal_append _ _ (by decide)
  have b1 : ((("client_id").data : List Char) == ("redirect_uri").data) = false := by
    decide
  have b2 : ((("redirect_uri").data : List Char) == ("redirect_uri").data) = true := by
    decide
  simp only [queryParam, hdata,
    afterChar_append '?' _ _
      (by decide : '?' ∉ ("https://accounts.google.com/o/oauth2/auth").data),
    splitChar_append '&' _ _ h1, splitChar_append '&' _ _ h2,
    List.map_cons, k1, k2, List.find?_cons, b1, b2, mk_data]

/-- Witness for C6: a concrete localhost base URL. -/
theorem c6_witness :
    ('&' ∉ ("myClient").data) ∧ ('&' ∉ ("http://localhost:8000/").data) ∧
    queryParam (google_auth "myClient" "http://localhost:8000/") "redirect_uri"
      = some (rstripSlash "http://localhost:8000/" ++ "/auth/google/callback") :=
  ⟨by decide, by decide,
   c6_redirect_uri_parameter "myClient" "http://localhost:8000/" (by decide) (by decide)⟩

/-- Claim C7: `auth_status` is a pure lookup: it answers connected with the
fixed services list `[gmail, calendar, drive]` iff the id is in the store,
answers not-connected with an empty list iff it is not, and its request
leaves the store unchanged (so repeated calls agree). -/
theorem c7_auth_status_pure_lookup (s : Store) (u : String) :
    (auth_status s u = (true, ["gmail", "calendar", "drive"]) ↔
      storeHas s (some u) = true) ∧
    (auth_status s u = (false, []) ↔ storeHas s (some u) = false) ∧
    stepStore (Event.statusEv u) s = s := by
  refine ⟨?_, ?_, rfl⟩
  · cases h : storeHas s (some u) with
    | false => simp [auth_status, h]
    | true => simp [auth_status, h]
  · cases h : storeHas s (some u) with
    | false => simp [auth_status, h]
    | true => simp [auth_status, h]

/-- Claim C8: on a non-success upstream completion status, `chat` fails with
HTTP 500, the detail embeds the raw upstream body, and exactly one upstream
request is made (no retry). -/
theorem c8_chat_upstream_error_500 (message : String) (status : Nat)
    (body content : String) (h : status ≠ 200) :
    chat message status body content
      = (Except.error { statusCode := 500,
                        detail := "Chat processing failed: 500: Cerebras API error: "
                          ++ body },
         1) ∧
    hasSubstr ("Chat processing failed: 500: Cerebras API error: " ++ body) body
      = true := by
  refine ⟨by simp [chat, h], hasSubstr_append_self _ _⟩

/-- Witness for C8: a concrete 429 upstream response. -/
theorem c8_witness :
    (429 : Nat) ≠ 200 ∧
    chat "hi" 429 "Too Many Requests" ""
      = (Except.error { statusCode := 500,
                        detail := "Chat processing failed: 500: Cerebras API error: "
                          ++ "Too Many Requests" },
         1) ∧
    hasSubstr ("Chat processing failed: 500: Cerebras API error: "
        ++ "Too Many Requests") "Too Many Requests" = true :=
  ⟨by decide,
   (c8_chat_upstream_error_500 "hi" 429 "Too Many Requests" "" (by decide)).1,
   (c8_chat_upstream_error_500 "hi" 429 "Too Many Requests" "" (by decide)).2⟩

/-- Claim C9: session-store entries are never deleted — any present key
stays present after any single request and after any request sequence — and
a successful callback stores the bundle from the most recent exchange
wholesale under the returned user id (overwrite, not merge). -/
theorem c9_store_overwrite_no_delete :
    (∀ (e : Event) (s : Store) (k : Option String),
        storeHas s k = true → storeHas (stepStore e s) k = true) ∧
    (∀ (evts : List Event) (s : Store) (k : Option String),
        storeHas s k = true → storeHas (runStore evts s) k = true) ∧
    (∀ (s : Store) (tokens user_info : Dict),
        (dictGet tokens "access_token").isSome = true →
        storeGet (stepStore (Event.callbackEv tokens user_info) s)
            (dictGet user_info "id") = some tokens) := by
  have step : ∀ (e : Event) (s : Store) (k : Option String),
      storeHas s k = true → storeHas (stepStore e s) k = true := by
    intro e s k h
    cases e with
    | callbackEv tokens user_info =>
      cases hat : dictGet tokens "access_token" with
      | none => simpa [stepStore, google_callback, hat] using h
      | some tok =>
        simp only [stepStore, google_callback, hat]
        exact (storeHas_storeSet_iff _ _ _ _).mpr (Or.inr h)
    | statusEv u1 => exact h
    | chatEv m st b c => exact h
    | gmailEv u1 l ids g => exact h
    | beginAuthEv cid rb => exact h
    | rootEv => exact h
    | healthEv => exact h
  refine ⟨step, ?_, ?_⟩
  · intro evts
    induction evts with
    | nil => intro s k h; exact h
    | cons e rest ih => intro s k h; exact ih _ _ (step e s k h)
  · intro s tokens user_info h1
    cases hat : dictGet tokens "access_token" with
    | none => rw [hat] at h1; exact absurd h1 (by simp)
    | some tok =>
      simp only [stepStore, google_callback, hat]
      exact storeGet_storeSet_self _ _ _

/-- Witness for C9: a re-authentication overwrites the stored bundle. -/
theorem c9_witness :
    (dictGet [("access_token", "new")] "access_token").isSome = true ∧
    storeGet (stepStore (Event.callbackEv [("access_token", "new")] [("id", "u1")])
        [(some "u1", [("access_token", "old")])]) (dictGet [("id", "u1")] "id")
      = some [("access_token", "new")] :=
  ⟨rfl,
   c9_store_overwrite_no_delete.2.2 [(some "u1", [("access_token", "old")])]
     [("access_token", "new")] [("id", "u1")] rfl⟩

/-- Claim C10: when the token exchange succeeds but the userinfo response
has no `id` field, `google_callback` still redirects with `auth=success`,
renders `user_id=None` in the query, and stores the bundle under the null
user id — the missing id is not treated as an error. -/
theorem c10_missing_id_stored_under_none (tokens user_info : Dict) (s : Store)
    (tok : String) (h1 : dictGet tokens "access_token" = some tok)
    (h2 : dictGet user_info "id" = none) :
    google_callback tokens user_info s
      = ({ url := frontend_url ++ "?auth=success&user_id=None", statusCode := 307 },
         storeSet s none tokens) ∧
    storeHas (storeSet s none tokens) none = true ∧
    storeGet (storeSet s none tokens) none = some tokens := by
  refine ⟨?_, storeHas_storeSet_self s none tokens, storeGet_storeSet_self s none tokens⟩
  simp [google_callback, h1, h2, pyShow]
  decide

/-- Witness for C10: a successful exchange with an empty userinfo response. -/
theorem c10_witness :
    dictGet [("access_token", "tok")] "access_token" = some "tok" ∧
    dictGet ([] : Dict) "id" = none ∧
    (google_callback [("access_token", "tok")] [] []
      = ({ url := frontend_url ++ "?auth=success&user_id=None", statusCode := 307 },
         storeSet [] none [("access_token", "tok")]) ∧
     storeHas (storeSet [] none [("access_token", "tok")]) none = true ∧
     storeGet (storeSet [] none [("access_token", "tok")]) none
       = some [("access_token", "tok")]) :=
  ⟨rfl, rfl, c10_missing_id_stored_under_none [("access_token", "tok")] [] [] "tok" rfl rfl⟩

end GoogleChatbot
